import Mathlib

/-
Verification development for the purchase-history recommender (src/app.py).

The program builds a binary user-by-item interaction matrix from the `users`
table via `pandas.Series.str.get_dummies(sep='|')`, computes pairwise user
cosine similarity with `sklearn.metrics.pairwise.cosine_similarity`, ranks
candidate items for a target user by a similarity-weighted sum over positive
similarity neighbours, excludes items the target already owns, and shows the
first five after a descending pandas sort.  Tab 2 registers a new user and
reruns the same pipeline, falling back to raw column-sum popularity when the
new user has no positive-similarity neighbour.  `find_best_match` resolves an
item token against the lowercased/stripped catalog titles with
`fuzzywuzzy.process.extractOne` and a score threshold of 70.

Strings are modelled through executable re-implementations of the Python
primitives actually used (`str.split`, `str.strip`, `str.lower`, `sorted`),
defined by structural recursion on the character list so concrete instances
reduce inside the kernel.  Real-valued similarity scores are modelled in ℝ.
-/

namespace PurchaseRec

/-- Embedding of Python `s.split(sep)` (single-character separator), the
splitting underlying `Series.str.get_dummies(sep='|')`: splits at every
separator occurrence and keeps empty pieces. -/
def pySplitAux (sep : Char) : List Char → List Char → List String
  | [], acc => [⟨acc.reverse⟩]
  | c :: cs, acc =>
    if c = sep then ⟨acc.reverse⟩ :: pySplitAux sep cs []
    else pySplitAux sep cs (c :: acc)

/-- Python `s.split(sep)` on a Lean `String`. -/
def pySplit (s : String) (sep : Char) : List String :=
  pySplitAux sep s.data []

/-- Embedding of Python `s.strip()`: drop whitespace from both ends. -/
def pyStrip (s : String) : String :=
  ⟨((s.data.dropWhile Char.isWhitespace).reverse.dropWhile Char.isWhitespace).reverse⟩

/-- Embedding of Python `s.lower()` (ASCII case folding). -/
def pyLower (s : String) : String :=
  ⟨s.data.map Char.toLower⟩

/-- Lexicographic (code-point) strict comparison of character lists, the order
Python uses to compare strings. -/
def pyLtChars : List Char → List Char → Bool
  | [], [] => false
  | [], _ :: _ => true
  | _ :: _, [] => false
  | a :: as, b :: bs => if a < b then true else if b < a then false else pyLtChars as bs

/-- Python string `<=`, as the negation of the reversed strict comparison. -/
def pyLe (a b : String) : Bool :=
  !(pyLtChars b.data a.data)

/-- Ordered insertion used by `sortStrings`. -/
def insertStr (x : String) : List String → List String
  | [] => [x]
  | y :: ys => if pyLe x y then x :: y :: ys else y :: insertStr x ys

/-- Embedding of Python `sorted` on a list of strings (ascending
lexicographic), used by pandas when it sorts the `get_dummies` column set. -/
def sortStrings : List String → List String
  | [] => []
  | x :: xs => insertStr x (sortStrings xs)

/-- One row of the `users` table: `(userID, previousPurchases)`.
`userID` is the SQLite primary key, so rows loaded from the table have
pairwise distinct `userID`s. -/
structure Row where
  userID : String
  previousPurchases : String
deriving DecidableEq

/-- The purchase tokens of a row: the `'|'`-split of its purchase string
(`get_dummies(sep='|')` splits exactly like this; empty pieces are then
discarded when the column set is formed). -/
def rowTokens (r : Row) : List String :=
  pySplit r.previousPurchases '|'

/-- The item vocabulary (column set of the interaction matrix) built by
`df['previousPurchases'].str.get_dummies(sep='|')`: all distinct non-empty
tokens across all rows, in ascending lexicographic order. -/
def vocab (users : List Row) : List String :=
  sortStrings (((users.map rowTokens).flatten.filter (fun t => t != "")).dedup)

/-- One cell of the binary interaction matrix: `1` iff the row's split
purchase list contains the token (this is `get_dummies`' membership test). -/
def entry (r : Row) (t : String) : ℕ :=
  if t ∈ rowTokens r then 1 else 0

/-- Label-based row lookup, the meaning of `purchase_matrix.loc[uid]` /
`sim_df[uid]` on the unique `userID` index.  For an absent label the pandas
code would raise; theorems about present users carry a membership
hypothesis, so the default value is never relevant there. -/
def userRow (users : List Row) (uid : String) : Row :=
  (users.find? (fun r => r.userID == uid)).getD ⟨uid, ""⟩

/-- Dot product of the binary purchase vectors of users `u` and `v` over the
vocabulary columns. -/
def dotN (users : List Row) (u v : String) : ℕ :=
  ((vocab users).map (fun t => entry (userRow users u) t * entry (userRow users v) t)).sum

/-- Squared Euclidean norm of a user's binary purchase vector. -/
def normSqN (users : List Row) (u : String) : ℕ :=
  dotN users u u

/-- The row norm as used by sklearn's `cosine_similarity`: `normalize`
replaces a zero norm by `1` before dividing, so an all-zero row stays zero
instead of producing NaN. -/
noncomputable def normOr1 (users : List Row) (u : String) : ℝ :=
  if normSqN users u = 0 then 1 else Real.sqrt (normSqN users u)

/-- One cell of `sim_df`: cosine similarity of the two binary rows, with
sklearn's zero-norm guard. -/
noncomputable def simEntry (users : List Row) (u v : String) : ℝ :=
  (dotN users u v : ℝ) / (normOr1 users u * normOr1 users v)

/-- Executable characterisation of the index of
`sim_scores = sim_df[uid].drop(uid); sim_scores = sim_scores[sim_scores > 0]`:
the other users whose dot product with the target is positive.  Related to
`simScores` by `simScores_eq`. -/
def simScoresIdx (users : List Row) (uid : String) : List Row :=
  (users.filter (fun r => r.userID != uid)).filter
    (fun r => decide (0 < dotN users uid r.userID))

/-- `sim_scores` from the source: the target's similarity row with the
self-label dropped, filtered to strictly positive scores, in index order. -/
noncomputable def simScores (users : List Row) (uid : String) : List (Row × ℝ) :=
  ((users.filter (fun r => r.userID != uid)).map
      (fun r => (r, simEntry users uid r.userID))).filter
    (fun p => decide (0 < p.2))

/-- `weighted_scores = purchase_matrix.loc[sim_scores.index].T.dot(sim_scores)`:
for every vocabulary item, the sum over neighbours of
(neighbour's binary indicator for the item) × (neighbour's similarity). -/
noncomputable def weightedScores (users : List Row) (uid : String) : List (String × ℝ) :=
  (vocab users).map
    (fun t => (t, ((simScores users uid).map (fun p => (entry p.1 t : ℝ) * p.2)).sum))

/-- `new_scores = weighted_scores[user_vector == 0]`: keep only the items with
a `0` in the target user's own row, preserving column (vocabulary) order. -/
noncomputable def newScores (users : List Row) (uid : String) : List (String × ℝ) :=
  (weightedScores users uid).filter (fun p => entry (userRow users uid) p.1 == 0)

/-- Comparison on (item, score) pairs by score, the key used by
`sort_values`. -/
def scoreLE (p q : String × ℝ) : Prop :=
  p.2 ≤ q.2

noncomputable instance : DecidableRel scoreLE :=
  fun p q => inferInstanceAs (Decidable (p.2 ≤ q.2))

instance : IsTotal (String × ℝ) scoreLE :=
  ⟨fun a b => le_total a.2 b.2⟩

instance : IsTrans (String × ℝ) scoreLE :=
  ⟨fun _ _ _ h1 h2 => le_trans h1 h2⟩

/-- `Series.sort_values(ascending=False)`: pandas argsorts ascending and then
reverses the index order (`nargsort` reverses the ascending permutation when
`ascending=False`).  For the short candidate arrays here the underlying numpy
introsort runs its insertion-sort branch, which is stable, so the model is a
stable ascending sort followed by a reversal. -/
noncomputable def sortValuesDesc (l : List (String × ℝ)) : List (String × ℝ) :=
  (List.insertionSort scoreLE l).reverse

/-- The tab-1 recommendation flow for a submitted user id: `none` models the
"User ID not found" branch; an empty list models the "No similar users found"
branch; otherwise the first five of the descending-sorted unowned weighted
scores (`new_scores.sort_values(ascending=False).head(5)`). -/
noncomputable def recommend (users : List Row) (uid : String) : Option (List (String × ℝ)) :=
  if uid ∈ users.map Row.userID then
    some (if (simScores users uid).isEmpty then []
          else (sortValuesDesc (newScores users uid)).take 5)
  else none

/-- A column sum of the interaction matrix (`purchase_matrix.sum()` at one
item): how many users own the item. -/
def colSum (users : List Row) (t : String) : ℕ :=
  (users.map (fun r => entry r t)).sum

/-- The tab-2 popularity fallback
`purchase_matrix.sum().sort_values(ascending=False).head(5)`: the five
largest column sums, no ownership filter. -/
noncomputable def popTop5 (users : List Row) : List (String × ℝ) :=
  (sortValuesDesc ((vocab users).map (fun t => (t, (colSum users t : ℝ))))).take 5

/-- The two rejection messages of the Add-New-User form: missing/blank input
(`"Please enter both User ID and purchase history."`) and an already existing
id (`"User ID already exists."`). -/
inductive ValidationError
  | emptyInput
  | duplicateId
deriving DecidableEq

/-- Outcome of the Add-New-User flow.  `dbError` models the uncaught
`sqlite3.IntegrityError` raised by the INSERT when the stripped id collides
with an existing `userID` PRIMARY KEY although the (unstripped) duplicate
check passed — nothing is inserted.  `crash` models the `KeyError` raised
after a committed insert when the submitted id (used as the `sim_df` label)
differs from the stripped id that was stored. -/
inductive RegOutcome
  | rejected (e : ValidationError)
  | ok (recs : List (String × ℝ))
  | dbError
  | crash

/-- The tab-2 Add-New-User flow.  Returns the resulting user store together
with the outcome.  Mirrors the source: blank id or blank purchase string →
warning, nothing inserted; id already in the table (the COUNT check uses the
unstripped id) → warning, nothing inserted; the INSERT stores the stripped
id, so when the stripped id collides with the PRIMARY KEY it raises
`IntegrityError` and nothing is inserted; otherwise the stripped row is
inserted and committed, the cache cleared, the matrices rebuilt from
scratch over all rows, and — provided the submitted id is a label of the
rebuilt index — either the popularity fallback (no positive-similarity
neighbour) or the standard pipeline result is produced. -/
noncomputable def registerAndRecommend (users : List Row) (uid purch : String) :
    List Row × RegOutcome :=
  if pyStrip uid = "" ∨ pyStrip purch = "" then
    (users, .rejected .emptyInput)
  else if uid ∈ users.map Row.userID then
    (users, .rejected .duplicateId)
  else if pyStrip uid ∈ users.map Row.userID then
    (users, .dbError)
  else if uid ∈ (users ++ [(⟨pyStrip uid, pyStrip purch⟩ : Row)]).map Row.userID then
    if (simScores (users ++ [⟨pyStrip uid, pyStrip purch⟩]) uid).isEmpty then
      (users ++ [⟨pyStrip uid, pyStrip purch⟩],
        .ok (popTop5 (users ++ [⟨pyStrip uid, pyStrip purch⟩])))
    else
      (users ++ [⟨pyStrip uid, pyStrip purch⟩],
        .ok ((sortValuesDesc (newScores (users ++ [⟨pyStrip uid, pyStrip purch⟩]) uid)).take 5))
  else
    (users ++ [⟨pyStrip uid, pyStrip purch⟩], .crash)

/-- `tools_df['Title_clean'] = tools_df['Title'].str.lower().str.strip()`:
the catalog-key normalisation is lowercasing followed by stripping — no
delimiter extraction of any kind. -/
def cleanTitle (s : String) : String :=
  pyStrip (pyLower s)

/-- The default fuzzy-match acceptance threshold of `find_best_match`. -/
def defaultThreshold : ℕ :=
  70

/-- One comparison step of `extractOne`'s maximum selection: replace the
current best candidate only on a strictly larger score, which is how
Python's `max` keeps the first maximal element. -/
def bestStep (score : String → String → ℕ) (query : String)
    (best : String × ℕ) (x : String) : String × ℕ :=
  if best.2 < score query x then (x, score query x) else best

/-- Embedding of `fuzzywuzzy.process.extractOne(query, choices)` with the
string scorer abstracted: `None` on an empty choice list, otherwise the
first choice attaining the maximal score. -/
def extractOne (score : String → String → ℕ) (query : String) :
    List String → Option (String × ℕ)
  | [] => none
  | c :: cs => some (cs.foldl (bestStep score query) (c, score query c))

/-- Outcome of `find_best_match`.  `crash` models the `TypeError` raised by
`match, score = process.extractOne(...)` unpacking `None` on an empty choice
list. -/
inductive MatchOutcome
  | crash
  | noMatch
  | found (key : String)
deriving DecidableEq

/-- `find_best_match(prod_name, choices, threshold=70)` from the source:
lowercase and strip the query, run `extractOne`, accept the best candidate
iff its score reaches the threshold. -/
def find_best_match (score : String → String → ℕ) (prod_name : String)
    (choices : List String) (threshold : ℕ) : MatchOutcome :=
  match extractOne score (pyStrip (pyLower prod_name)) choices with
  | none => .crash
  | some (m, s) => if threshold ≤ s then .found m else .noMatch

/-- Concrete user table with a tied pair of candidate items: user `B` owns
`x`, `y`, `z`; user `A` owns only `x`, so `y` and `z` get the same weighted
score for `A`. -/
def demoTie : List Row :=
  [⟨"A", "x"⟩, ⟨"B", "x|y|z"⟩]

/-- Concrete single-user table used by the registration examples. -/
def demoReg : List Row :=
  [⟨"A", "x"⟩]

/-- Concrete table whose user `A` has an empty purchase string, hence an
all-zero interaction row. -/
def demoZero : List Row :=
  [⟨"A", ""⟩, ⟨"B", "x"⟩]

/-- Concrete table with overlapping purchase histories, used as the generic
recommendation witness. -/
def demoAB : List Row :=
  [⟨"A", "x|y"⟩, ⟨"B", "y|z"⟩]

/- ------------------------------------------------------------------ -/
/- General lemmas about the embedded pipeline.                         -/
/- ------------------------------------------------------------------ -/

/-- The sklearn-style guarded norm is strictly positive. -/
lemma normOr1_pos (users : List Row) (u : String) : 0 < normOr1 users u := by
  unfold normOr1
  split
  · norm_num
  · next h => exact Real.sqrt_pos.mpr (Nat.cast_pos.mpr (Nat.pos_of_ne_zero h))

/-- A similarity cell is strictly positive exactly when the underlying
integer dot product is. -/
lemma simEntry_pos_iff (users : List Row) (u v : String) :
    0 < simEntry users u v ↔ 0 < dotN users u v := by
  unfold simEntry
  constructor
  · intro h
    by_contra hn
    have h0 : dotN users u v = 0 := Nat.le_zero.mp (Nat.not_lt.mp hn)
    rw [h0] at h
    norm_num at h
  · intro h
    exact div_pos (Nat.cast_pos.mpr h) (mul_pos (normOr1_pos users u) (normOr1_pos users v))

/-- The positive-similarity filter of `sim_scores` coincides with the
executable positive-dot-product filter. -/
lemma simScores_eq (users : List Row) (uid : String) :
    simScores users uid =
      (simScoresIdx users uid).map (fun r => (r, simEntry users uid r.userID)) := by
  unfold simScores simScoresIdx
  rw [List.filter_map]
  congr 1
  apply List.filter_congr
  intro r _
  simp only [Function.comp_apply]
  exact decide_eq_decide.mpr (simEntry_pos_iff users uid r.userID)

/-- The dot product of two users' rows is symmetric. -/
lemma dotN_comm (users : List Row) (u v : String) : dotN users u v = dotN users v u := by
  unfold dotN
  congr 1
  apply List.map_congr_left
  intro t _
  ring

/-- Membership in an `insertStr` insertion. -/
lemma mem_insertStr {x y : String} {l : List String} :
    y ∈ insertStr x l ↔ y = x ∨ y ∈ l := by
  induction l with
  | nil => simp [insertStr]
  | cons a as ih =>
    unfold insertStr
    by_cases h : pyLe x a = true
    · rw [if_pos h]
      simp
    · rw [if_neg h]
      simp only [List.mem_cons, ih]
      tauto

/-- `sortStrings` preserves membership. -/
lemma mem_sortStrings {t : String} {l : List String} :
    t ∈ sortStrings l ↔ t ∈ l := by
  induction l with
  | nil => simp [sortStrings]
  | cons a as ih =>
    unfold sortStrings
    rw [mem_insertStr, ih, List.mem_cons]

/-- Every non-empty token of a loaded row is a vocabulary column. -/
lemma mem_vocab_of_mem_tokens {users : List Row} {r : Row} {t : String}
    (hr : r ∈ users) (ht : t ∈ rowTokens r) (hne : t ≠ "") : t ∈ vocab users := by
  unfold vocab
  rw [mem_sortStrings, List.mem_dedup, List.mem_filter]
  refine ⟨?_, by simpa using hne⟩
  rw [List.mem_flatten]
  exact ⟨rowTokens r, List.mem_map_of_mem _ hr, ht⟩

/-- The descending sort yields pairwise non-increasing scores. -/
lemma pairwise_sortValuesDesc (l : List (String × ℝ)) :
    (sortValuesDesc l).Pairwise (fun p q => q.2 ≤ p.2) := by
  have h := List.sorted_insertionSort scoreLE l
  unfold sortValuesDesc
  rw [List.pairwise_reverse]
  exact h

/-- Past validation and past the PRIMARY-KEY insert (the stripped id collides
with no stored id), the Add-New-User flow always returns the extended user
store, whatever recommendation branch it takes. -/
lemma registerAndRecommend_fst (users : List Row) (uid p : String)
    (h1 : ¬(pyStrip uid = "" ∨ pyStrip p = ""))
    (h2 : uid ∉ users.map Row.userID)
    (h3 : pyStrip uid ∉ users.map Row.userID) :
    (registerAndRecommend users uid p).1 = users ++ [⟨pyStrip uid, pyStrip p⟩] := by
  unfold registerAndRecommend
  rw [if_neg h1, if_neg h2, if_neg h3]
  split
  · split <;> rfl
  · rfl

/-- The modelled PRIMARY-KEY collision path: submitting `" A "` over a store
holding `"A"` passes the unstripped duplicate check but the INSERT of the
stripped id raises `IntegrityError`, so nothing is inserted and the store is
unchanged. -/
lemma registerAndRecommend_integrity_error :
    registerAndRecommend demoReg " A " "y" = (demoReg, RegOutcome.dbError) := by
  unfold registerAndRecommend
  rw [if_neg (by decide), if_neg (by decide), if_pos (by decide)]

/-- Invariants of `extractOne`'s maximum-selection fold: the final best is
the seed or one of the scanned candidates, its recorded score is its real
score when the seed's is, the best score never decreases, and it dominates
every scanned candidate. -/
lemma foldl_bestStep_spec (score : String → String → ℕ) (q : String) :
    ∀ (cs : List String) (b : String × ℕ),
      (cs.foldl (bestStep score q) b = b ∨ (cs.foldl (bestStep score q) b).1 ∈ cs) ∧
        (b.2 = score q b.1 →
          (cs.foldl (bestStep score q) b).2 = score q (cs.foldl (bestStep score q) b).1) ∧
        b.2 ≤ (cs.foldl (bestStep score q) b).2 ∧
        ∀ k ∈ cs, score q k ≤ (cs.foldl (bestStep score q) b).2 := by
  intro cs
  induction cs with
  | nil =>
    intro b
    exact ⟨Or.inl rfl, fun h => h, le_refl _, by simp⟩
  | cons x xs ih =>
    intro b
    rw [List.foldl_cons]
    rcases ih (bestStep score q b x) with ⟨hmem, hsc, hle, hmax⟩
    have hstep : b.2 ≤ (bestStep score q b x).2 ∧ score q x ≤ (bestStep score q b x).2 ∧
        (b.2 = score q b.1 → (bestStep score q b x).2 = score q (bestStep score q b x).1) := by
      unfold bestStep
      by_cases hx : b.2 < score q x
      · rw [if_pos hx]
        exact ⟨le_of_lt hx, le_refl _, fun _ => rfl⟩
      · rw [if_neg hx]
        exact ⟨le_refl _, Nat.le_of_not_lt hx, fun h => h⟩
    refine ⟨?_, ?_, ?_, ?_⟩
    · rcases hmem with hmem | hmem
      · rw [hmem]
        unfold bestStep
        by_cases hx : b.2 < score q x
        · rw [if_pos hx]
          exact Or.inr (List.mem_cons_self _ _)
        · rw [if_neg hx]
          exact Or.inl rfl
      · exact Or.inr (List.mem_cons_of_mem _ hmem)
    · intro h
      exact hsc (hstep.2.2 h)
    · exact le_trans hstep.1 hle
    · intro k hk
      rcases List.mem_cons.mp hk with hk | hk
      · rw [hk]
        exact le_trans hstep.2.1 hle
      · exact hmax k hk

/-- `extractOne` on a non-empty choice list returns a choice attaining the
maximal score. -/
lemma extractOne_spec (score : String → String → ℕ) (q c : String) (cs : List String) :
    ∃ m s, extractOne score q (c :: cs) = some (m, s) ∧ m ∈ c :: cs ∧
      s = score q m ∧ ∀ k ∈ c :: cs, score q k ≤ s := by
  rcases foldl_bestStep_spec score q cs (c, score q c) with ⟨hmem, hsc, hle, hmax⟩
  refine ⟨(cs.foldl (bestStep score q) (c, score q c)).1,
    (cs.foldl (bestStep score q) (c, score q c)).2, rfl, ?_, hsc rfl, ?_⟩
  · rcases hmem with h | h
    · rw [h]
      exact List.mem_cons_self _ _
    · exact List.mem_cons_of_mem _ h
  · intro k hk
    rcases List.mem_cons.mp hk with hk | hk
    · rw [hk]
      exact hle
    · exact hmax k hk

/- ------------------------------------------------------------------ -/
/- Claim theorems.                                                     -/
/- ------------------------------------------------------------------ -/

/-- Claim C5: for every interaction matrix and every pair of user labels,
the similarity matrix is symmetric: `similarity(u, v) = similarity(v, u)`. -/
theorem similarity_symmetric (users : List Row) (u v : String) :
    simEntry users u v = simEntry users v u := by
  unfold simEntry
  rw [dotN_comm, mul_comm]

/-- Claim C6: a user whose interaction row is all-zero (no purchases) has
similarity exactly `0` with every user, in both matrix orientations — the
zero-norm guard of the similarity engine prevents NaN. -/
theorem zero_purchases_similarity_zero (users : List Row) (u : String)
    (h : ∀ t ∈ vocab users, entry (userRow users u) t = 0) :
    ∀ v, simEntry users u v = 0 ∧ simEntry users v u = 0 := by
  intro v
  have hdot : dotN users u v = 0 := by
    apply List.sum_eq_zero
    intro x hx
    rcases List.mem_map.mp hx with ⟨t, ht, rfl⟩
    rw [h t ht, zero_mul]
  have hdot' : dotN users v u = 0 := by
    rw [dotN_comm]
    exact hdot
  constructor
  · unfold simEntry
    rw [hdot]
    norm_num
  · unfold simEntry
    rw [hdot']
    norm_num

/-- Witness for C6 at a concrete table: user `A` has the empty purchase
string, so both similarity cells with `B` are `0`. -/
theorem zero_purchases_similarity_zero_witness :
    (∀ t ∈ vocab demoZero, entry (userRow demoZero "A") t = 0) ∧
      (simEntry demoZero "A" "B" = 0 ∧ simEntry demoZero "B" "A" = 0) :=
  ⟨by decide, zero_purchases_similarity_zero demoZero "A" (by decide) "B"⟩

/-- Claim C1: for a user present in the interaction matrix, no recommended
item is in that user's own purchase set — every recommended item has a `0`
in the target user's interaction row. -/
theorem recommend_excludes_owned (users : List Row) (uid : String)
    (hu : uid ∈ users.map Row.userID) :
    ∀ p ∈ (recommend users uid).getD [], entry (userRow users uid) p.1 = 0 ∧
      p.1 ∉ rowTokens (userRow users uid) := by
  intro p hp
  unfold recommend at hp
  rw [if_pos hu, Option.getD_some] at hp
  by_cases he : (simScores users uid).isEmpty = true
  · rw [if_pos he] at hp
    exact absurd hp (List.not_mem_nil p)
  · rw [if_neg he] at hp
    have h1 : p ∈ newScores users uid := by
      have h2 := (List.take_sublist 5 _).subset hp
      unfold sortValuesDesc at h2
      rw [List.mem_reverse, List.mem_insertionSort] at h2
      exact h2
    unfold newScores at h1
    rw [List.mem_filter] at h1
    have h0 : entry (userRow users uid) p.1 = 0 := by
      have h3 := h1.2
      simpa using h3
    refine ⟨h0, ?_⟩
    intro hmem
    unfold entry at h0
    rw [if_pos hmem] at h0
    exact one_ne_zero h0

/-- Witness for C1 at a concrete table with overlapping purchases. -/
theorem recommend_excludes_owned_witness :
    ("A" ∈ demoAB.map Row.userID) ∧
      ∀ p ∈ (recommend demoAB "A").getD [], entry (userRow demoAB "A") p.1 = 0 ∧
        p.1 ∉ rowTokens (userRow demoAB "A") :=
  ⟨by decide, recommend_excludes_owned demoAB "A" (by decide)⟩

/-- Claim C4: for every user present in the matrix, the recommendation list
has length at most 5 and its scores are non-increasing in list order. -/
theorem recommend_len_le_five_sorted (users : List Row) (uid : String)
    (hu : uid ∈ users.map Row.userID) :
    ((recommend users uid).getD []).length ≤ 5 ∧
      ((recommend users uid).getD []).Pairwise
        (fun p q : String × ℝ => q.2 ≤ p.2) := by
  unfold recommend
  rw [if_pos hu, Option.getD_some]
  by_cases he : (simScores users uid).isEmpty = true
  · rw [if_pos he]
    exact ⟨by norm_num, List.Pairwise.nil⟩
  · rw [if_neg he]
    constructor
    · rw [List.length_take]
      exact inf_le_left
    · exact List.Pairwise.sublist (List.take_sublist 5 _) (pairwise_sortValuesDesc _)

/-- Witness for C4 at a concrete table. -/
theorem recommend_len_le_five_sorted_witness :
    ("A" ∈ demoAB.map Row.userID) ∧
      (((recommend demoAB "A").getD []).length ≤ 5 ∧
        ((recommend demoAB "A").getD []).Pairwise
          (fun p q : String × ℝ => q.2 ≤ p.2)) :=
  ⟨by decide, recommend_len_le_five_sorted demoAB "A" (by decide)⟩

/-- Claim C7: submitting a blank userID, or one already present in the
table, is rejected with a validation error and leaves the user store — and
hence the interaction matrix derived from it — unchanged. -/
theorem register_invalid_id_rejected (users : List Row) (uid p : String)
    (h : pyStrip uid = "" ∨ uid ∈ users.map Row.userID) :
    (registerAndRecommend users uid p).1 = users ∧
      ∃ e, (registerAndRecommend users uid p).2 = RegOutcome.rejected e := by
  unfold registerAndRecommend
  by_cases h1 : pyStrip uid = "" ∨ pyStrip p = ""
  · rw [if_pos h1]
    exact ⟨rfl, ValidationError.emptyInput, rfl⟩
  · rw [if_neg h1]
    have hdup : uid ∈ users.map Row.userID := by
      rcases h with h | h
      · exact absurd (Or.inl h) h1
      · exact h
    rw [if_pos hdup]
    exact ⟨rfl, ValidationError.duplicateId, rfl⟩

/-- Witness for C7: re-registering the existing id `A` is rejected and the
store is unchanged. -/
theorem register_invalid_id_rejected_witness :
    (pyStrip "A" = "" ∨ "A" ∈ demoReg.map Row.userID) ∧
      ((registerAndRecommend demoReg "A" "y").1 = demoReg ∧
        ∃ e, (registerAndRecommend demoReg "A" "y").2 = RegOutcome.rejected e) :=
  ⟨by decide, register_invalid_id_rejected demoReg "A" "y" (by decide)⟩

/-- Claim C10: `find_best_match` crashes (the `TypeError` from unpacking
`None`) on an empty catalog key list, while for any non-empty key list it
gracefully returns either a key from the list whose score reaches the
threshold, or the no-match outcome. -/
theorem find_best_match_total_iff_nonempty (score : String → String → ℕ)
    (q : String) (t : ℕ) :
    find_best_match score q [] t = MatchOutcome.crash ∧
      ∀ (c : String) (cs : List String),
        (∃ k, find_best_match score q (c :: cs) t = MatchOutcome.found k ∧
            k ∈ c :: cs ∧ t ≤ score (pyStrip (pyLower q)) k) ∨
          find_best_match score q (c :: cs) t = MatchOutcome.noMatch := by
  constructor
  · rfl
  · intro c cs
    rcases extractOne_spec score (pyStrip (pyLower q)) c cs with ⟨m, s, heq, hmem, hsc, _⟩
    by_cases ht : t ≤ s
    · refine Or.inl ⟨m, ?_, hmem, ?_⟩
      · unfold find_best_match
        rw [heq]
        exact if_pos ht
      · rw [← hsc]
        exact ht
    · refine Or.inr ?_
      unfold find_best_match
      rw [heq]
      exact if_neg ht

/-- Claim C9 (amended): catalog keys and queries are both normalised by
lowercasing plus stripping only — the composite key `"ACME | Forceps 10cm"`
normalises to `"acme | forceps 10cm"`, with no delimiter extraction — and on
a non-empty key list the matcher returns the maximum-scoring key exactly
when its score reaches the threshold, otherwise no match. -/
theorem matcher_normalises_and_thresholds :
    cleanTitle "ACME | Forceps 10cm" = "acme | forceps 10cm" ∧
      ∀ (score : String → String → ℕ) (q c : String) (cs : List String) (t : ℕ),
        ∃ m s, extractOne score (pyStrip (pyLower q)) (c :: cs) = some (m, s) ∧
          m ∈ c :: cs ∧ s = score (pyStrip (pyLower q)) m ∧
          (∀ k ∈ c :: cs, score (pyStrip (pyLower q)) k ≤ s) ∧
          find_best_match score q (c :: cs) t =
            (if t ≤ s then MatchOutcome.found m else MatchOutcome.noMatch) := by
  constructor
  · decide
  · intro score q c cs t
    rcases extractOne_spec score (pyStrip (pyLower q)) c cs with ⟨m, s, heq, hmem, hsc, hmax⟩
    refine ⟨m, s, heq, hmem, hsc, hmax, ?_⟩
    unfold find_best_match
    rw [heq]

/-- Counterexample for C9 as stated: the source normalises the catalog key
`"ACME | Forceps 10cm"` to `"acme | forceps 10cm"`, not to the
delimiter-extracted `"forceps 10cm"` the claim asserts. -/
theorem catalog_key_normalisation_cex :
    cleanTitle "ACME | Forceps 10cm" = "acme | forceps 10cm" ∧
      cleanTitle "ACME | Forceps 10cm" ≠ "forceps 10cm" := by
  decide

/-- In `demoTie`, the only positive-similarity neighbour of `A` is `B`. -/
lemma demoTie_simScoresIdx : simScoresIdx demoTie "A" = [⟨"B", "x|y|z"⟩] := by
  decide

/-- The `sim_scores` series of `A` in `demoTie`. -/
lemma demoTie_simScores :
    simScores demoTie "A" = [(⟨"B", "x|y|z"⟩, simEntry demoTie "A" "B")] := by
  rw [simScores_eq, demoTie_simScoresIdx]
  rfl

/-- The weighted scores of `A` in `demoTie`: every vocabulary item gets the
single neighbour's similarity as its score. -/
lemma demoTie_weighted :
    weightedScores demoTie "A" =
      [("x", simEntry demoTie "A" "B"), ("y", simEntry demoTie "A" "B"),
        ("z", simEntry demoTie "A" "B")] := by
  unfold weightedScores
  rw [demoTie_simScores, show vocab demoTie = ["x", "y", "z"] from by decide]
  simp [show entry (⟨"B", "x|y|z"⟩ : Row) "x" = 1 from by decide,
    show entry (⟨"B", "x|y|z"⟩ : Row) "y" = 1 from by decide,
    show entry (⟨"B", "x|y|z"⟩ : Row) "z" = 1 from by decide]

/-- The unowned candidate scores of `A` in `demoTie`: the owned item `x` is
dropped and the tied pair `y`, `z` remains in vocabulary order. -/
lemma demoTie_newScores :
    newScores demoTie "A" =
      [("y", simEntry demoTie "A" "B"), ("z", simEntry demoTie "A" "B")] := by
  unfold newScores
  rw [demoTie_weighted]
  simp [List.filter_cons, List.filter_nil,
    show (entry (userRow demoTie "A") "x" == 0) = false from by decide,
    show (entry (userRow demoTie "A") "y" == 0) = true from by decide,
    show (entry (userRow demoTie "A") "z" == 0) = true from by decide]

/-- Sorting the tied pair: the stable ascending sort keeps `y` before `z`,
and the descending reversal emits `z` first. -/
lemma demoTie_sorted :
    sortValuesDesc
        [("y", simEntry demoTie "A" "B"), ("z", simEntry demoTie "A" "B")] =
      [("z", simEntry demoTie "A" "B"), ("y", simEntry demoTie "A" "B")] := by
  have hsorted : List.Sorted scoreLE
      [("y", simEntry demoTie "A" "B"), ("z", simEntry demoTie "A" "B")] := by
    refine List.pairwise_cons.mpr ⟨?_, ?_⟩
    · intro b hb
      rw [List.mem_singleton.mp hb]
      exact le_refl _
    · simp
  unfold sortValuesDesc
  rw [hsorted.insertionSort_eq]
  rfl

/-- The full recommendation for `A` in `demoTie`. -/
lemma demoTie_recommend :
    recommend demoTie "A" =
      some [("z", simEntry demoTie "A" "B"), ("y", simEntry demoTie "A" "B")] := by
  unfold recommend
  rw [if_pos (show "A" ∈ demoTie.map Row.userID from by decide)]
  rw [show (simScores demoTie "A").isEmpty = false from by rw [demoTie_simScores]; rfl]
  rw [if_neg (by norm_num : ¬false = true)]
  rw [demoTie_newScores, demoTie_sorted]
  rfl

/-- Counterexample for C8 as stated: in `demoTie` the unowned items `y` and
`z` have equal weighted score and `y` precedes `z` in vocabulary order, yet
the recommendation lists `z` first — ties are broken by reverse vocabulary
order, not by vocabulary order. -/
theorem tie_break_vocab_order_cex :
    vocab demoTie = ["x", "y", "z"] ∧
      entry (userRow demoTie "A") "y" = 0 ∧ entry (userRow demoTie "A") "z" = 0 ∧
      recommend demoTie "A" =
        some [("z", simEntry demoTie "A" "B"), ("y", simEntry demoTie "A" "B")] :=
  ⟨by decide, by decide, by decide, demoTie_recommend⟩

/-- Claim C8 (amended): the candidate ordering is deterministic — the result
is the first five of the descending sort of the unowned weighted scores —
and for two unowned candidates with equal score, the one later in
vocabulary order appears earlier in that descending order (pandas reverses
a stable ascending sort when `ascending=False`). -/
theorem tie_break_reverse_vocab_order (users : List Row) (uid : String)
    (x y : String × ℝ)
    (hu : uid ∈ users.map Row.userID)
    (hne : (simScores users uid).isEmpty = false)
    (hsub : List.Sublist [x, y] (newScores users uid))
    (heq : x.2 = y.2) :
    List.Sublist [y, x] (sortValuesDesc (newScores users uid)) ∧
      recommend users uid = some ((sortValuesDesc (newScores users uid)).take 5) := by
  constructor
  · have h1 : List.Sublist [x, y] (List.insertionSort scoreLE (newScores users uid)) :=
      List.pair_sublist_insertionSort (le_of_eq heq) hsub
    have h2 := h1.reverse
    simpa using h2
  · unfold recommend
    rw [if_pos hu, hne]
    rfl

/-- Witness for the amended C8 at `demoTie`, with the tied pair
`(y, z)`. -/
theorem tie_break_reverse_vocab_order_witness :
    ("A" ∈ demoTie.map Row.userID) ∧
      ((simScores demoTie "A").isEmpty = false) ∧
      List.Sublist [("y", simEntry demoTie "A" "B"), ("z", simEntry demoTie "A" "B")]
        (newScores demoTie "A") ∧
      (List.Sublist [("z", simEntry demoTie "A" "B"), ("y", simEntry demoTie "A" "B")]
          (sortValuesDesc (newScores demoTie "A")) ∧
        recommend demoTie "A" = some ((sortValuesDesc (newScores demoTie "A")).take 5)) := by
  have hne : (simScores demoTie "A").isEmpty = false := by
    rw [demoTie_simScores]
    rfl
  have hsub : List.Sublist
      [("y", simEntry demoTie "A" "B"), ("z", simEntry demoTie "A" "B")]
      (newScores demoTie "A") := by
    rw [demoTie_newScores]
  exact ⟨by decide, hne, hsub,
    tie_break_reverse_vocab_order demoTie "A" _ _ (by decide) hne hsub rfl⟩

/-- Claim C2 (amended): registering a new user — submitted id non-blank,
free of surrounding whitespace, and not already present — whose purchase
string contains tokens outside the current vocabulary is accepted (the flow
reaches a recommendation result), and since the matrices are rebuilt from
scratch over the extended table, every non-empty token of the new user —
unknown ones included — becomes a column of the rebuilt interaction
matrix. -/
theorem register_expands_vocab (users : List Row) (uid p : String)
    (h1 : ¬(pyStrip uid = "" ∨ pyStrip p = ""))
    (h2 : uid ∉ users.map Row.userID)
    (h3 : pyStrip uid = uid) :
    (registerAndRecommend users uid p).1 = users ++ [⟨pyStrip uid, pyStrip p⟩] ∧
      (∃ recs, (registerAndRecommend users uid p).2 = RegOutcome.ok recs) ∧
      ∀ t ∈ rowTokens ⟨pyStrip uid, pyStrip p⟩, t ≠ "" →
        t ∈ vocab ((registerAndRecommend users uid p).1) := by
  have h2' : pyStrip uid ∉ users.map Row.userID := by
    rw [h3]
    exact h2
  have hf := registerAndRecommend_fst users uid p h1 h2 h2'
  have hmem : uid ∈ (users ++ [(⟨pyStrip uid, pyStrip p⟩ : Row)]).map Row.userID := by
    rw [List.map_append, List.mem_append]
    refine Or.inr ?_
    simp [h3]
  refine ⟨hf, ?_, ?_⟩
  · unfold registerAndRecommend
    rw [if_neg h1, if_neg h2, if_neg h2', if_pos hmem]
    by_cases he :
        (simScores (users ++ [(⟨pyStrip uid, pyStrip p⟩ : Row)]) uid).isEmpty = true
    · rw [if_pos he]
      exact ⟨_, rfl⟩
    · rw [if_neg he]
      exact ⟨_, rfl⟩
  · intro t ht hne
    rw [hf]
    refine mem_vocab_of_mem_tokens ?_ ht hne
    simp

/-- Witness for the amended C2: registering `B` with `"x|q"` over the store
`[A: "x"]` is accepted and both of `B`'s tokens are columns afterwards. -/
theorem register_expands_vocab_witness :
    (¬(pyStrip "B" = "" ∨ pyStrip "x|q" = "")) ∧
      ("B" ∉ demoReg.map Row.userID) ∧
      pyStrip "B" = "B" ∧
      ((registerAndRecommend demoReg "B" "x|q").1 =
          demoReg ++ [⟨pyStrip "B", pyStrip "x|q"⟩] ∧
        (∃ recs, (registerAndRecommend demoReg "B" "x|q").2 = RegOutcome.ok recs) ∧
        ∀ t ∈ rowTokens ⟨pyStrip "B", pyStrip "x|q"⟩, t ≠ "" →
          t ∈ vocab ((registerAndRecommend demoReg "B" "x|q").1)) :=
  ⟨by decide, by decide, by decide,
    register_expands_vocab demoReg "B" "x|q" (by decide) (by decide) (by decide)⟩

/-- Counterexample for C2 as stated: registering `B` with the unknown token
`q` over the store `[A: "x"]` is accepted, and the column set of the
rebuilt interaction matrix changes from `["x"]` to `["q", "x"]` — the
unknown token is not dropped. -/
theorem register_unknown_token_cex :
    (registerAndRecommend demoReg "B" "x|q").1 = [⟨"A", "x"⟩, ⟨"B", "x|q"⟩] ∧
      vocab demoReg = ["x"] ∧
      vocab [⟨"A", "x"⟩, ⟨"B", "x|q"⟩] = ["q", "x"] := by
  refine ⟨?_, by decide, by decide⟩
  rw [registerAndRecommend_fst demoReg "B" "x|q" (by decide) (by decide) (by decide)]
  decide

/-- Counterexample for C3 as stated: registering a fresh, non-duplicate id
with an empty purchase string is not accepted — the source rejects it with
the missing-input warning and inserts nothing. -/
theorem register_empty_purchases_rejected_cex :
    registerAndRecommend demoReg "B" "" =
      (demoReg, RegOutcome.rejected ValidationError.emptyInput) := by
  unfold registerAndRecommend
  rw [if_pos (Or.inr (by decide))]

/-- Claim C3 (amended): an empty (or whitespace-only) purchase string is
rejected with the missing-input validation error and the store is left
unchanged; the popularity fallback — the five largest column sums of the
rebuilt matrix, descending, with no ownership filter — is returned instead
when the accepted new user has no strictly positive similarity neighbour. -/
theorem register_empty_rejected_popularity_fallback :
    (∀ (users : List Row) (uid p : String), pyStrip p = "" →
        registerAndRecommend users uid p =
          (users, RegOutcome.rejected ValidationError.emptyInput)) ∧
      ∀ (users : List Row) (uid p : String),
        ¬(pyStrip uid = "" ∨ pyStrip p = "") →
        uid ∉ users.map Row.userID →
        pyStrip uid = uid →
        (simScores (users ++ [⟨pyStrip uid, pyStrip p⟩]) uid).isEmpty = true →
        registerAndRecommend users uid p =
          (users ++ [⟨pyStrip uid, pyStrip p⟩],
            RegOutcome.ok (popTop5 (users ++ [⟨pyStrip uid, pyStrip p⟩]))) := by
  constructor
  · intro users uid p hp
    unfold registerAndRecommend
    rw [if_pos (Or.inr hp)]
  · intro users uid p h1 h2 htrim hempty
    unfold registerAndRecommend
    have h2' : pyStrip uid ∉ users.map Row.userID := by
      rw [htrim]
      exact h2
    rw [if_neg h1, if_neg h2, if_neg h2']
    have hmem : uid ∈ (users ++ [(⟨pyStrip uid, pyStrip p⟩ : Row)]).map Row.userID := by
      rw [List.map_append, List.mem_append]
      refine Or.inr ?_
      simp [htrim]
    rw [if_pos hmem, if_pos hempty]

/-- Witness for the amended C3: blank purchases (`" "`) are rejected over
`demoReg`; registering `B` with the vocabulary-disjoint token `q` triggers
the popularity fallback. -/
theorem register_empty_rejected_popularity_fallback_witness :
    (pyStrip " " = "" ∧
        registerAndRecommend demoReg "Z" " " =
          (demoReg, RegOutcome.rejected ValidationError.emptyInput)) ∧
      (¬(pyStrip "B" = "" ∨ pyStrip "q" = "") ∧
        ("B" ∉ demoReg.map Row.userID) ∧
        pyStrip "B" = "B" ∧
        (simScores (demoReg ++ [⟨pyStrip "B", pyStrip "q"⟩]) "B").isEmpty = true ∧
        registerAndRecommend demoReg "B" "q" =
          (demoReg ++ [⟨pyStrip "B", pyStrip "q"⟩],
            RegOutcome.ok (popTop5 (demoReg ++ [⟨pyStrip "B", pyStrip "q"⟩])))) := by
  have hempty : (simScores (demoReg ++ [⟨pyStrip "B", pyStrip "q"⟩]) "B").isEmpty = true := by
    rw [simScores_eq,
      show simScoresIdx (demoReg ++ [⟨pyStrip "B", pyStrip "q"⟩]) "B" = [] from by decide]
    rfl
  refine ⟨⟨by decide,
      register_empty_rejected_popularity_fallback.1 demoReg "Z" " " (by decide)⟩,
    by decide, by decide, by decide, hempty,
    register_empty_rejected_popularity_fallback.2 demoReg "B" "q"
      (by decide) (by decide) (by decide) hempty⟩

end PurchaseRec
